import Mathlib

set_option maxRecDepth 16384

/-!
Shallow embedding of the client-side logic of the romania-rss-feed static
site (src/assets/app.js, the main profiles page, and the statistics page
script) together with proofs about its search, sort, rendering, statistics
and counter-animation behaviour.

JavaScript strings are modelled as Lean `String`; JavaScript numbers that
the code only ever uses as integer counts are modelled as `Nat`, timestamps
as `Int` (milliseconds since the epoch), and the floating-point arithmetic
of the counter animation as exact rationals `ℚ`.  Absent object fields are
modelled as `Option`; the JavaScript `x || d` fallback (which also replaces
the empty string and `0`) is modelled by `strOr` / `natOr`.  Browser DOM
primitives that the code relies on (`textContent`-based HTML escaping,
`innerHTML`-based tag stripping, `toLowerCase`, `trim`,
`encodeURIComponent`, `localeCompare`) are modelled by executable Lean
functions that follow their standard specified behaviour; each such model
is marked in its doc comment.
-/

/-- Model of the ASCII case mapping performed by `String.prototype.toLowerCase`
restricted to the Basic Latin range (the canonical model used throughout). -/
def charToLower (c : Char) : Char :=
  if 65 ≤ c.toNat ∧ c.toNat ≤ 90 then Char.ofNat (c.toNat + 32) else c

/-- Model of the ASCII case mapping performed by `String.prototype.toUpperCase`
restricted to the Basic Latin range. -/
def charToUpper (c : Char) : Char :=
  if 97 ≤ c.toNat ∧ c.toNat ≤ 122 then Char.ofNat (c.toNat - 32) else c

/-- Model of `String.prototype.toLowerCase`. -/
def jsToLower (s : String) : String := ⟨s.data.map charToLower⟩

/-- Model of `String.prototype.trim`: removes leading and trailing
whitespace characters. -/
def jsTrim (s : String) : String :=
  ⟨((s.data.dropWhile Char.isWhitespace).reverse.dropWhile Char.isWhitespace).reverse⟩

/-- Model of `s.includes(sub)`: `sub` occurs contiguously inside `s`. -/
def jsIncludes (s sub : String) : Bool := decide (sub.data <:+: s.data)

/-- The JavaScript string fallback `a || b` for an optional string field:
an absent field and the empty string are both falsy and select `b`. -/
def strOr (a : Option String) (b : String) : String :=
  match a with
  | none => b
  | some s => if s = "" then b else s

/-- The JavaScript numeric fallback `a || 0` for an optional count field
(`0` is falsy, so the fallback is also `0` and `Option.getD` is faithful). -/
def natOr (a : Option Nat) : Nat := a.getD 0

/-- Template interpolation of a possibly absent string field without a
fallback (`${profile.username}` renders the string `undefined` when the
field is absent). -/
def jsToStringOpt (a : Option String) : String := a.getD "undefined"

/-- The JavaScript fallback `a || b` between two optional string fields,
keeping track of absence (used where the source writes
`profile.display_name || profile.username` with no final default). -/
def jsOrOpt (a b : Option String) : Option String :=
  match a with
  | none => b
  | some s => if s = "" then b else some s

/-- `new Date(x || 0).getTime()` for an optional timestamp field, with the
timestamp modelled directly as epoch milliseconds. -/
def jsDateMs (a : Option Int) : Int := a.getD 0

/-- Model of `a.localeCompare(b)`: negative when `a` orders before `b`,
positive when after, zero on ties.  The locale-sensitive collation of the
browser is modelled by the lexicographic order on Lean strings. -/
def localeCompare (a b : String) : Int :=
  if a < b then -1 else if b < a then 1 else 0

/-- A profile record as consumed from `/data/profiles.json`.  Every field
the scripts read is optional, matching access on a plain JSON object; the
JSON field `instance` is spelled `instance_` because `instance` is a Lean
keyword. -/
structure Profile where
  username : Option String := none
  display_name : Option String := none
  note : Option String := none
  avatar : Option String := none
  acct : Option String := none
  instance_ : Option String := none
  statuses_count : Option Nat := none
  followers_count : Option Nat := none
  following_count : Option Nat := none
  last_status_at : Option Int := none
  created_at : Option Int := none
deriving DecidableEq

/-- The predicate applied to each profile inside `handleSearch`
(src/assets/app.js lines 49-58): lower-cased substring match of the search
term against display name (falling back to username), username, and the raw
`note` field. -/
def searchMatches (query : String) (profile : Profile) : Bool :=
  let name := jsToLower (strOr profile.display_name (strOr profile.username ""))
  let username := jsToLower (strOr profile.username "")
  let description := jsToLower (strOr profile.note "")
  let searchTerm := jsToLower query
  jsIncludes name searchTerm || jsIncludes username searchTerm ||
    jsIncludes description searchTerm

/-- The pure filtering core of `handleSearch` (src/assets/app.js lines
43-63): the raw input value is lower-cased and trimmed; an empty result
restores the full list, otherwise the list is filtered by `searchMatches`. -/
def handleSearch (data : List Profile) (raw : String) : List Profile :=
  let query := jsTrim (jsToLower raw)
  if query = "" then data else data.filter (searchMatches query)

/-- The comparator of `handleSort` (src/assets/app.js lines 69-82),
selected by the sort key; returns the signed number the JavaScript
comparator returns. -/
def sortComparator (sortBy : String) (a b : Profile) : Int :=
  if sortBy = "name" then
    localeCompare (strOr a.display_name (strOr a.username ""))
      (strOr b.display_name (strOr b.username ""))
  else if sortBy = "posts" then
    (natOr b.statuses_count : Int) - (natOr a.statuses_count : Int)
  else if sortBy = "followers" then
    (natOr b.followers_count : Int) - (natOr a.followers_count : Int)
  else if sortBy = "recent" then
    jsDateMs b.created_at - jsDateMs a.created_at
  else 0

/-- `handleSort` (src/assets/app.js lines 66-85): a stable comparator sort
of the filtered list (modern `Array.prototype.sort` is stable, modelled by
`List.mergeSort`; `a` stays before `b` exactly when the comparator is
non-positive). -/
def handleSort (sortBy : String) (l : List Profile) : List Profile :=
  l.mergeSort (fun a b => decide (sortComparator sortBy a b ≤ 0))

example : handleSearch [{ note := some "abc" }] "B" = [{ note := some "abc" }] := by decide

/-- Digit-grouping core of `formatNumber`: working on the reversed digit
list, a comma is inserted after every third digit that is followed by a
further digit (the `\B` of the regex forbids a leading separator). -/
def insertThousands : List Char → List Char
  | a :: b :: c :: d :: rest => a :: b :: c :: ',' :: insertThousands (d :: rest)
  | l => l

/-- `formatNumber` (src/assets/app.js lines 133-135): decimal rendering with
comma thousands separators. -/
def formatNumber (num : Nat) : String :=
  ⟨(insertThousands (toString num).data.reverse).reverse⟩

example : formatNumber 1234567 = "1,234,567" := by decide

example : formatNumber 123 = "123" := by decide

/-- Escaping of one character as performed by the DOM `textContent` to
`innerHTML` round trip used by `escapeHtml`. -/
def escapeChar (c : Char) : String :=
  if c = '&' then "&amp;" else if c = '<' then "&lt;" else if c = '>' then "&gt;"
  else String.singleton c

/-- `escapeHtml` (src/assets/app.js lines 225-229).  The function assigns
`textContent` on a detached div and reads back `innerHTML`; the DOM escapes
the characters `&`, `<` and `>`, modelled here directly. -/
def escapeHtml (text : String) : String := String.join (text.data.map escapeChar)

/-- Tag-removal scanner underlying the `stripHtml` model: the Boolean flag
records whether the scanner is inside a `<`...`>` tag. -/
def stripTags : Bool → List Char → List Char
  | _, [] => []
  | true, c :: rest => if c = '>' then stripTags false rest else stripTags true rest
  | false, c :: rest => if c = '<' then stripTags true rest else c :: stripTags false rest

/-- `stripHtml` (src/assets/app.js lines 231-235).  The function parses the
string as HTML on a detached div and reads back `textContent`; modelled as
removing every `<`...`>` tag (character entities are left untouched by the
model). -/
def stripHtml (html : String) : String := ⟨stripTags false html.data⟩

example : stripHtml "<b>salut</b> lume" = "salut lume" := by decide

/-- UTF-8 byte sequence of a character, for the `encodeURIComponent`
model. -/
def utf8Bytes (c : Char) : List Nat :=
  let n := c.toNat
  if n < 128 then [n]
  else if n < 2048 then [192 + n / 64, 128 + n % 64]
  else if n < 65536 then [224 + n / 4096, 128 + (n / 64) % 64, 128 + n % 64]
  else [240 + n / 262144, 128 + (n / 4096) % 64, 128 + (n / 64) % 64, 128 + n % 64]

/-- Upper-case hexadecimal digit. -/
def hexDigit (n : Nat) : Char :=
  if n < 10 then Char.ofNat (48 + n) else Char.ofNat (55 + n)

/-- Percent-encoding of one byte. -/
def percentByte (b : Nat) : String := ⟨['%', hexDigit (b / 16), hexDigit (b % 16)]⟩

/-- The characters `encodeURIComponent` leaves unescaped. -/
def isUnreservedURIChar (c : Char) : Bool :=
  c.isAlphanum || c = '-' || c = '_' || c = '.' || c = '!' || c = '~' || c = '*' ||
    c = Char.ofNat 39 || c = '(' || c = ')'

/-- Model of the browser built-in `encodeURIComponent`. -/
def encodeURIComponent (s : String) : String :=
  String.join (s.data.map (fun c =>
    if isUnreservedURIChar c then String.singleton c
    else String.join ((utf8Bytes c).map percentByte)))

/-- `getRelAttribute` (src/assets/app.js lines 167-174). -/
def getRelAttribute (_username inst : String) : String :=
  if inst = "" ∨ inst = "mstdn.ro" then "noopener nofollow" else "noopener"

/-- `displayName.charAt(0).toUpperCase()`: the upper-cased first character,
or the empty string for an empty input. -/
def jsCharAtUpper (s : String) : String :=
  match s.data with
  | [] => ""
  | c :: _ => String.singleton (charToUpper c)

/-- The avatar slot of a profile card (the `${avatar ? ... : ...}` branch of
the template in src/assets/app.js lines 193-194): an image with a hidden
initial-letter fallback when an avatar URL is present, otherwise the
initial-letter badge alone. -/
def avatarSlotHtml (avatar displayName avatarInitial : String) : String :=
  if avatar ≠ "" then
    "<img src=\"" ++ avatar ++ "\" alt=\"" ++ displayName ++
      "\" width=\"64\" height=\"64\" loading=\"lazy\" decoding=\"async\" onerror=\"this.style.display=\x27none\x27; this.nextElementSibling.style.display=\x27flex\x27;\" style=\"width:100%;height:100%;object-fit:cover;border-radius:var(--radius);\">\n          <span style=\"display:none;\">" ++
      avatarInitial ++ "</span>"
  else "<span>" ++ avatarInitial ++ "</span>"

/-- `createProfileCard` (src/assets/app.js lines 177-222): the HTML fragment
of one profile card. -/
def createProfileCard (profile : Profile) : String :=
  let displayName := strOr profile.display_name (strOr profile.username "Fără nume")
  let username := strOr profile.username ""
  let description := strOr profile.note "Fără descriere"
  let avatar := strOr profile.avatar ""
  let avatarInitial := jsCharAtUpper displayName
  let posts := natOr profile.statuses_count
  let followers := natOr profile.followers_count
  let inst := strOr profile.instance_ "social.5th.ro"
  "\n    <div class=\"profile-card\">\n      <div class=\"profile-header\">\n        <div class=\"profile-avatar\">\n          " ++
    avatarSlotHtml avatar displayName avatarInitial ++
    "\n        </div>\n        <div class=\"profile-info\">\n          <h3 class=\"profile-name\">" ++
    escapeHtml displayName ++
    "</h3>\n          <p class=\"profile-username\">@" ++
    escapeHtml (strOr profile.acct (username ++ "@" ++ inst)) ++
    "</p>\n        </div>\n      </div>\n      <p class=\"profile-description\">" ++
    escapeHtml (stripHtml description) ++
    "</p>\n      <div class=\"profile-stats\">\n        <div class=\"profile-stat\">\n          <svg viewBox=\"0 0 24 24\" fill=\"none\" stroke=\"currentColor\" stroke-width=\"2\">\n            <path d=\"M4 19.5A2.5 2.5 0 0 1 6.5 17H20\"></path>\n            <path d=\"M6.5 2H20v20H6.5A2.5 2.5 0 0 1 4 19.5v-15A2.5 2.5 0 0 1 6.5 2z\"></path>\n          </svg>\n          <strong>" ++
    formatNumber posts ++
    "</strong> postări\n        </div>\n        <div class=\"profile-stat\">\n          <svg viewBox=\"0 0 24 24\" fill=\"none\" stroke=\"currentColor\" stroke-width=\"2\">\n            <path d=\"M17 21v-2a4 4 0 0 0-4-4H5a4 4 0 0 0-4 4v2\"></path>\n            <circle cx=\"9\" cy=\"7\" r=\"4\"></circle>\n            <path d=\"M23 21v-2a4 4 0 0 0-3-3.87\"></path>\n            <path d=\"M16 3.13a4 4 0 0 1 0 7.75\"></path>\n          </svg>\n          <strong>" ++
    formatNumber followers ++
    "</strong> urmăritori\n        </div>\n      </div>\n    </div>\n  "

/-- The localized error message passed to `showError` when the profiles
fetch fails (src/assets/app.js line 24). -/
def profilesErrorMessage : String :=
  "Nu s-au putut încărca profilurile. Te rugăm să reîmprospătezi pagina."

/-- The grid markup written by `showError` (src/assets/app.js lines
237-246). -/
def showErrorHtml (message : String) : String :=
  "\n      <div class=\"empty-state\">\n        <p style=\"color: var(--accent-2);\">" ++
    escapeHtml message ++ "</p>\n      </div>\n    "

/-- The no-results placeholder written by `renderProfiles` when the
filtered list is empty (src/assets/app.js lines 143-151). -/
def emptyStateHtml : String :=
  "\n      <div class=\"empty-state\">\n        <svg viewBox=\"0 0 24 24\" fill=\"none\" stroke=\"currentColor\" stroke-width=\"2\">\n          <circle cx=\"11\" cy=\"11\" r=\"8\"></circle>\n          <path d=\"m21 21-4.35-4.35\"></path>\n        </svg>\n        <p>Nu s-au găsit profiluri care să corespundă criteriilor de căutare.</p>\n      </div>\n    "

/-- The in-memory state of the main page: the two module-level arrays of
src/assets/app.js and the `innerHTML` of the `profilesGrid` element (the
element is assumed present; the stat counters and results count live in
other elements and are modelled separately). -/
structure PageState where
  profilesData : List Profile
  filteredProfiles : List Profile
  gridHtml : String
deriving DecidableEq

/-- `renderProfiles` (src/assets/app.js lines 138-164) as a state
transformer on the grid markup. -/
def renderProfiles (s : PageState) : PageState :=
  if s.filteredProfiles.length = 0 then { s with gridHtml := emptyStateHtml }
  else { s with gridHtml := String.join (s.filteredProfiles.map createProfileCard) }

/-- The `input` event handler `handleSearch` (src/assets/app.js lines
43-63): recomputes the filtered list from the source list and re-renders. -/
def handleSearchOp (raw : String) (s : PageState) : PageState :=
  renderProfiles { s with filteredProfiles := handleSearch s.profilesData raw }

/-- The `change` event handler `handleSort` (src/assets/app.js lines
66-85): sorts the filtered list in place and re-renders. -/
def handleSortOp (sortBy : String) (s : PageState) : PageState :=
  renderProfiles { s with filteredProfiles := handleSort sortBy s.filteredProfiles }

/-- A user interaction on the main page after load: typing a search query
or picking a sort key. -/
inductive UserOp where
  | search (raw : String)
  | sort (sortBy : String)

/-- Dispatch of one user interaction. -/
def applyOp (s : PageState) : UserOp → PageState
  | .search raw => handleSearchOp raw s
  | .sort sortBy => handleSortOp sortBy s

/-- A whole interaction history. -/
def applyOps (s : PageState) (ops : List UserOp) : PageState := ops.foldl applyOp s

/-- The `DOMContentLoaded` sequence of the main page (src/assets/app.js
lines 8-13): `loadProfiles` (with the fetch outcome as parameter: `some`
for a parsed array, `none` for any network, HTTP or parse failure),
then `setupSearch` and `updateStats` (which do not touch the grid), then
`renderProfiles`. -/
def initMainPage (fetchResult : Option (List Profile)) : PageState :=
  let s0 : PageState := ⟨[], [], ""⟩
  let s1 :=
    match fetchResult with
    | some ps => { s0 with profilesData := ps, filteredProfiles := ps }
    | none => { s0 with gridHtml := showErrorHtml profilesErrorMessage }
  renderProfiles s1

/-- The nested `stats` object of `/data/server-stats.json`. -/
structure ServerStatsInner where
  user_count : Option Nat := none
  status_count : Option Nat := none
  domain_count : Option Nat := none
deriving DecidableEq

/-- The server statistics object of `/data/server-stats.json` as read by the
statistics page script. -/
structure ServerStats where
  version : Option String := none
  stats : Option ServerStatsInner := none
  title : Option String := none
  short_description : Option String := none
deriving DecidableEq

/-- The `Object.keys(stats).length === 0` test of `renderServerStats`,
modelled as every modelled key being absent. -/
def serverStatsIsEmptyObject (s : ServerStats) : Bool :=
  s.version = none ∧ s.stats = none ∧ s.title = none ∧ s.short_description = none

/-- The localized placeholder written when server statistics are
unavailable (statistics page script, `loadServerStats` catch branch and the
empty-object branch of `renderServerStats`). -/
def serverUnavailableHtml : String :=
  "<p style=\"color: var(--text-muted);\">Statisticile serverului nu sunt disponibile momentan.</p>"

/-- The optional title/description block of `renderServerStats`. -/
def serverTitleBlockHtml (s : ServerStats) : String :=
  if strOr s.title "" ≠ "" then
    "\n    <div style=\"margin-top: 32px; padding-top: 24px; border-top: 1px solid var(--border);\">\n      <div style=\"font-size: 14px; color: var(--text-muted); margin-bottom: 8px;\">Titlu Server</div>\n      <div style=\"font-size: 18px; font-weight: 600; color: var(--text);\">" ++
      escapeHtml (jsToStringOpt s.title) ++ "</div>\n      " ++
      (if strOr s.short_description "" ≠ "" then
        "<div style=\"font-size: 14px; color: var(--text-muted); margin-top: 8px;\">" ++
          escapeHtml (jsToStringOpt s.short_description) ++ "</div>"
      else "") ++ "\n    </div>\n    "
  else ""

/-- `renderServerStats` (statistics page script): the markup written into
the `serverStats` element for a fetched statistics object. -/
def renderServerStats (s : ServerStats) : String :=
  let version := strOr s.version "N/A"
  let statsData := s.stats.getD {}
  let userCount := natOr statsData.user_count
  let statusCount := natOr statsData.status_count
  let domainCount := natOr statsData.domain_count
  if serverStatsIsEmptyObject s then serverUnavailableHtml
  else
    "\n    <div style=\"display: grid; grid-template-columns: repeat(auto-fit, minmax(200px, 1fr)); gap: 24px;\">\n      <div>\n        <div style=\"font-size: 14px; color: var(--text-muted); margin-bottom: 8px;\">Versiune Mastodon</div>\n        <div style=\"font-size: 24px; font-weight: 700; color: var(--text);\">" ++
      escapeHtml version ++
      "</div>\n      </div>\n      <div>\n        <div style=\"font-size: 14px; color: var(--text-muted); margin-bottom: 8px;\">Utilizatori Totali</div>\n        <div style=\"font-size: 24px; font-weight: 700; color: var(--text);\">" ++
      formatNumber userCount ++
      "</div>\n      </div>\n      <div>\n        <div style=\"font-size: 14px; color: var(--text-muted); margin-bottom: 8px;\">Statusuri Totale</div>\n        <div style=\"font-size: 24px; font-weight: 700; color: var(--text);\">" ++
      formatNumber statusCount ++
      "</div>\n      </div>\n      <div>\n        <div style=\"font-size: 14px; color: var(--text-muted); margin-bottom: 8px;\">Domenii Conectate</div>\n        <div style=\"font-size: 24px; font-weight: 700; color: var(--text);\">" ++
      formatNumber domainCount ++
      "</div>\n      </div>\n    </div>\n    " ++
      serverTitleBlockHtml s ++ "\n  "

/-- The top-10-by-posts list of `renderTopProfiles` (statistics page
script): a copy of the profile list sorted descending by post count, first
ten entries. -/
def topPosts (data : List Profile) : List Profile :=
  (data.mergeSort (fun a b =>
    decide ((natOr b.statuses_count : Int) - (natOr a.statuses_count : Int) ≤ 0))).take 10

/-- The top-10-by-followers list of `renderTopProfiles`. -/
def topFollowers (data : List Profile) : List Profile :=
  (data.mergeSort (fun a b =>
    decide ((natOr b.followers_count : Int) - (natOr a.followers_count : Int) ≤ 0))).take 10

/-- One entry of a top-profiles list (the template of `renderTopProfiles`),
with `stat` the already formatted count column. -/
def topProfileItemHtml (profile : Profile) (index : Nat) (stat : String) : String :=
  "\n      <div class=\"top-profile-item\" onclick=\"window.location.href=\x27/profiles/" ++
    encodeURIComponent (jsToStringOpt profile.username) ++
    "/\x27\">\n        <div class=\"top-profile-info\">\n          <div class=\"top-profile-rank\">#" ++
    toString (index + 1) ++
    "</div>\n          <div>\n            <div class=\"top-profile-name\">" ++
    escapeHtml (jsToStringOpt (jsOrOpt profile.display_name profile.username)) ++
    "</div>\n            <div style=\"font-size: 14px; color: var(--text-muted);\">@" ++
    escapeHtml (jsToStringOpt profile.username) ++
    "</div>\n          </div>\n        </div>\n        <div class=\"top-profile-stat\">" ++
    stat ++ "</div>\n      </div>\n    "

/-- The in-memory DOM state of the statistics page: the `innerHTML` of the
`topPosts`, `topFollowers` and `serverStats` elements (all assumed
present). -/
structure StatsPageState where
  topPostsHtml : String
  topFollowersHtml : String
  serverStatsHtml : String
deriving DecidableEq

/-- `renderTopProfiles` (statistics page script) as a state transformer. -/
def renderTopProfilesStep (data : List Profile) (s : StatsPageState) : StatsPageState :=
  { s with
    topPostsHtml := String.join ((topPosts data).enum.map (fun ip =>
      topProfileItemHtml ip.2 ip.1 (formatNumber (natOr ip.2.statuses_count))))
    topFollowersHtml := String.join ((topFollowers data).enum.map (fun ip =>
      topProfileItemHtml ip.2 ip.1 (formatNumber (natOr ip.2.followers_count)))) }

/-- `loadServerStats` (statistics page script): a successful fetch renders
the statistics object, any failure writes the localized placeholder. -/
def loadServerStatsStep (sf : Option ServerStats) (s : StatsPageState) : StatsPageState :=
  match sf with
  | some st => { s with serverStatsHtml := renderServerStats st }
  | none => { s with serverStatsHtml := serverUnavailableHtml }

/-- The `DOMContentLoaded` sequence of the statistics page: `loadProfiles`
(whose catch branch only logs, leaving the module array empty), then
`updateOverviewStats` (counter animations, no markup writes),
`renderTopProfiles`, and `loadServerStats`.  Each fetch outcome is a
parameter (`none` for any network, HTTP or parse failure). -/
def statsPageInit (pf : Option (List Profile)) (sf : Option ServerStats) : StatsPageState :=
  let data := match pf with | some ps => ps | none => ([] : List Profile)
  loadServerStatsStep sf (renderTopProfilesStep data ⟨"", "", ""⟩)

/-- `increment` as computed by `animateValue`
(`range / (duration / 16)`). -/
def animIncrement (start endv duration : ℚ) : ℚ := (endv - start) / (duration / 16)

/-- One `setInterval` tick of `animateValue`: add the increment, and on
overshoot clamp to the end value and clear the interval (the Boolean is
true once the interval has been cleared). -/
def animStep (endv increment current : ℚ) : ℚ × Bool :=
  let c := current + increment
  if (increment > 0 ∧ endv ≤ c) ∨ (increment < 0 ∧ c ≤ endv) then (endv, true) else (c, false)

/-- The counter value and cleared-flag of `animateValue` after `k` ticks
(`animateValue` appears identically in src/assets/app.js lines 114-130 and
in the statistics page script). -/
def animRun (start endv duration : ℚ) : Nat → ℚ × Bool
  | 0 => (start, false)
  | k + 1 =>
    let s := animRun start endv duration k
    if s.2 then s else animStep endv (animIncrement start endv duration) s.1

/-- The integer the element shows after tick `k ≥ 1`
(`formatNumber(Math.floor(current))`). -/
def animDisplayed (start endv duration : ℚ) (k : Nat) : Int :=
  ⌊(animRun start endv duration k).1⌋

/-- The active-profile test of `updateStats` (src/assets/app.js lines
100-105) and `updateOverviewStats` (statistics page script): a
`last_status_at` timestamp exists and lies at most 30 days (in
milliseconds) before `now`. -/
def isActiveProfile (now : Int) (p : Profile) : Bool :=
  match p.last_status_at with
  | none => false
  | some t => decide ((((now : ℚ) - (t : ℚ)) / (1000 * 60 * 60 * 24)) ≤ 30)

/-- The `activeProfiles` statistic of both pages. -/
def activeProfilesCount (now : Int) (data : List Profile) : Nat :=
  (data.filter (isActiveProfile now)).length

/-- The `totalPosts` statistic of both pages. -/
def totalPostsCount (data : List Profile) : Nat :=
  data.foldl (fun sum p => sum + natOr p.statuses_count) 0

/-- The `totalFollowers` statistic of both pages. -/
def totalFollowersCount (data : List Profile) : Nat :=
  data.foldl (fun sum p => sum + natOr p.followers_count) 0

/-- Substring containment on strings (the propositional counterpart of
`jsIncludes`). -/
def strContains (s sub : String) : Prop := sub.data <:+: s.data

instance (s sub : String) : Decidable (strContains s sub) :=
  inferInstanceAs (Decidable (sub.data <:+: s.data))

/-- The search predicate exactly as the specification words it: the
lower-cased query is a substring of the lower-cased display name, username,
or HTML-stripped biography.  This is the claimed behaviour, to be compared
with `searchMatches`; it is not the code. -/
def specSearchPred (q : String) (p : Profile) : Prop :=
  strContains (jsToLower (strOr p.display_name "")) (jsToLower q) ∨
  strContains (jsToLower (strOr p.username "")) (jsToLower q) ∨
  strContains (jsToLower (stripHtml (strOr p.note ""))) (jsToLower q)

/-- The corrected search predicate, matching the code: the display name
falls back to the username, and the biography is matched raw, without HTML
stripping. -/
def amendedSearchPred (key : String) (p : Profile) : Prop :=
  strContains (jsToLower (strOr p.display_name (strOr p.username ""))) (jsToLower key) ∨
  strContains (jsToLower (strOr p.username "")) (jsToLower key) ∨
  strContains (jsToLower (strOr p.note "")) (jsToLower key)

/-- A profile whose only set field is an HTML-bearing biography; used to
separate the raw-note matching of the code from the stripped-note matching
of the specification. -/
def noteOnlyProfile : Profile := { note := some "<br>" }

/-- A small concrete profile for witnesses. -/
def anaProfile : Profile :=
  { username := some "ana", display_name := some "Ana Pop",
    statuses_count := some 150, followers_count := some 10 }

theorem renderProfiles_profilesData (s : PageState) :
    (renderProfiles s).profilesData = s.profilesData := by
  unfold renderProfiles; split <;> rfl

theorem renderProfiles_filteredProfiles (s : PageState) :
    (renderProfiles s).filteredProfiles = s.filteredProfiles := by
  unfold renderProfiles; split <;> rfl

theorem applyOp_profilesData (s : PageState) (op : UserOp) :
    (applyOp s op).profilesData = s.profilesData := by
  cases op <;>
    simp [applyOp, handleSearchOp, handleSortOp, renderProfiles_profilesData]

theorem applyOps_profilesData (s : PageState) (ops : List UserOp) :
    (applyOps s ops).profilesData = s.profilesData := by
  induction ops generalizing s with
  | nil => rfl
  | cons op ops ih =>
    show (applyOps (applyOp s op) ops).profilesData = s.profilesData
    rw [ih (applyOp s op), applyOp_profilesData]

/-- C7: across every sequence of search and sort interactions after a
successful load, the source array `profilesData` still holds exactly the
loaded profiles, in their original order; the interactions only rebuild the
derived filtered view. -/
theorem profilesData_unchanged_by_interactions (data : List Profile) (ops : List UserOp) :
    (applyOps (initMainPage (some data)) ops).profilesData = data := by
  rw [applyOps_profilesData]
  show (renderProfiles _).profilesData = data
  rw [renderProfiles_profilesData]

theorem charToLower_whitespace {c : Char} (h : c.isWhitespace = true) :
    charToLower c = c := by
  have h4 : c = ' ' ∨ c = '\t' ∨ c = '\r' ∨ c = '\n' := by
    simpa [Char.isWhitespace, Bool.or_eq_true, decide_eq_true_iff, or_assoc] using h
  rcases h4 with h | h | h | h <;> subst h <;> decide

theorem jsTrim_jsToLower_whitespace {q : String}
    (h : q.data.all Char.isWhitespace = true) :
    jsTrim (jsToLower q) = "" := by
  have hall : ∀ c ∈ q.data, c.isWhitespace = true := by
    simpa [List.all_eq_true] using h
  have hlow : ∀ c ∈ (jsToLower q).data, c.isWhitespace = true := by
    intro c hc
    simp only [jsToLower] at hc
    rcases List.mem_map.mp hc with ⟨d, hd, rfl⟩
    rw [charToLower_whitespace (hall d hd)]
    exact hall d hd
  unfold jsTrim
  rw [List.dropWhile_eq_nil_iff.mpr hlow]
  rfl

/-- C3: after any history of search and sort interactions, a search whose
query is empty or all-whitespace resets the filtered view to exactly the
loaded profile list, in source order. -/
theorem emptyQuery_restores_loaded_list (data : List Profile) (ops : List UserOp)
    (q : String) (h : q.data.all Char.isWhitespace = true) :
    (applyOp (applyOps (initMainPage (some data)) ops) (UserOp.search q)).filteredProfiles
      = data := by
  show (handleSearchOp q _).filteredProfiles = data
  unfold handleSearchOp
  rw [renderProfiles_filteredProfiles]
  show handleSearch _ q = data
  unfold handleSearch
  rw [jsTrim_jsToLower_whitespace h, if_pos rfl]
  exact profilesData_unchanged_by_interactions data ops

/-- Witness for C3 at a concrete profile list, interaction history and an
all-whitespace query. -/
theorem emptyQuery_restores_loaded_list_witness :
    (" \t".data.all Char.isWhitespace = true) ∧
    (applyOp (applyOps (initMainPage (some [anaProfile]))
        [UserOp.search "zzz", UserOp.sort "followers"]) (UserOp.search " \t")).filteredProfiles
      = [anaProfile] :=
  ⟨by decide, emptyQuery_restores_loaded_list [anaProfile]
    [UserOp.search "zzz", UserOp.sort "followers"] " \t" (by decide)⟩

theorem searchMatches_iff_amended (query : String) (p : Profile) :
    searchMatches query p = true ↔ amendedSearchPred query p := by
  simp [searchMatches, amendedSearchPred, jsIncludes, strContains,
    Bool.or_eq_true, decide_eq_true_iff, or_assoc]

/-- C1 (amended): for every query whose lower-cased trimmed form is
non-empty, `handleSearch` keeps exactly the profiles whose lower-cased
display name (falling back to the username), username, or raw biography
(the `note` field, not HTML-stripped) contains the lower-cased trimmed
query, and drops all others. -/
theorem handleSearch_keeps_exactly_matches (data : List Profile) (raw : String) (p : Profile)
    (h : jsTrim (jsToLower raw) ≠ "") :
    p ∈ handleSearch data raw ↔
      p ∈ data ∧ amendedSearchPred (jsTrim (jsToLower raw)) p := by
  unfold handleSearch
  rw [if_neg h, List.mem_filter, searchMatches_iff_amended]

/-- Witness for C1 at a concrete list and query. -/
theorem handleSearch_keeps_exactly_matches_witness :
    jsTrim (jsToLower " AN ") ≠ "" ∧
    (anaProfile ∈ handleSearch [anaProfile] " AN " ↔
      anaProfile ∈ [anaProfile] ∧ amendedSearchPred (jsTrim (jsToLower " AN ")) anaProfile) :=
  ⟨by decide, handleSearch_keeps_exactly_matches [anaProfile] " AN " anaProfile (by decide)⟩

theorem localeCompare_le_zero {a b : String} : localeCompare a b ≤ 0 ↔ a ≤ b := by
  unfold localeCompare
  split_ifs with h1 h2
  · exact iff_of_true (by norm_num) (le_of_lt h1)
  · exact iff_of_false (by norm_num) (not_le.mpr h2)
  · exact iff_of_true le_rfl (le_of_not_lt h2)

theorem sortComparator_followers (a b : Profile) :
    sortComparator "followers" a b
      = (natOr b.followers_count : Int) - (natOr a.followers_count : Int) := by
  simp [sortComparator]

theorem sortComparator_name (a b : Profile) :
    sortComparator "name" a b
      = localeCompare (strOr a.display_name (strOr a.username ""))
          (strOr b.display_name (strOr b.username "")) := by
  simp [sortComparator]

/-- C4: sorting with key `followers` permutes the list into non-increasing
order of follower counts (absent counts read as 0), and sorting with key
`name` permutes the list into the order of the modelled locale comparison
of display names (with username fallback). -/
theorem handleSort_followers_name_spec (data : List Profile) :
    (handleSort "followers" data).Perm data ∧
    List.Pairwise (fun a b => natOr b.followers_count ≤ natOr a.followers_count)
      (handleSort "followers" data) ∧
    (handleSort "name" data).Perm data ∧
    List.Pairwise (fun a b =>
      localeCompare (strOr a.display_name (strOr a.username ""))
        (strOr b.display_name (strOr b.username "")) ≤ 0)
      (handleSort "name" data) := by
  refine ⟨List.mergeSort_perm data _, ?_, List.mergeSort_perm data _, ?_⟩
  · have hs := @List.sorted_mergeSort Profile
      (fun a b => decide (sortComparator "followers" a b ≤ 0))
      (fun a b c hab hbc => by
        rw [decide_eq_true_iff, sortComparator_followers] at hab hbc ⊢
        omega)
      (fun a b => by
        rw [Bool.or_eq_true, decide_eq_true_iff, decide_eq_true_iff,
          sortComparator_followers, sortComparator_followers]
        omega)
      data
    exact hs.imp (fun hab => by
      rw [decide_eq_true_iff, sortComparator_followers] at hab
      omega)
  · have hs := @List.sorted_mergeSort Profile
      (fun a b => decide (sortComparator "name" a b ≤ 0))
      (fun a b c hab hbc => by
        rw [decide_eq_true_iff, sortComparator_name, localeCompare_le_zero] at hab hbc ⊢
        exact le_trans hab hbc)
      (fun a b => by
        rw [Bool.or_eq_true, decide_eq_true_iff, decide_eq_true_iff,
          sortComparator_name, sortComparator_name,
          localeCompare_le_zero, localeCompare_le_zero]
        exact le_total _ _)
      data
    exact hs.imp (fun hab => by
      rw [decide_eq_true_iff, sortComparator_name] at hab
      exact hab)

theorem sortedTake10_facts (f : Profile → Nat) (data : List Profile) :
    ((data.mergeSort (fun a b => decide ((f b : Int) - (f a : Int) ≤ 0))).take 10).length ≤ 10 ∧
    List.Pairwise (fun a b => f b ≤ f a)
      ((data.mergeSort (fun a b => decide ((f b : Int) - (f a : Int) ≤ 0))).take 10) ∧
    ∀ p ∈ data,
      p ∉ (data.mergeSort (fun a b => decide ((f b : Int) - (f a : Int) ≤ 0))).take 10 →
      ∀ q ∈ (data.mergeSort (fun a b => decide ((f b : Int) - (f a : Int) ≤ 0))).take 10,
        f p ≤ f q := by
  set le := fun a b => decide ((f b : Int) - (f a : Int) ≤ 0) with hle
  set l' := data.mergeSort le with hl'
  have htrans : ∀ a b c, le a b = true → le b c = true → le a c = true := by
    intro a b c hab hbc
    rw [hle] at *
    rw [decide_eq_true_iff] at *
    omega
  have htotal : ∀ a b, (le a b || le b a) = true := by
    intro a b
    rw [hle, Bool.or_eq_true, decide_eq_true_iff, decide_eq_true_iff]
    omega
  have hs : List.Pairwise (fun a b => le a b = true) l' :=
    List.sorted_mergeSort htrans htotal data
  have hs' : List.Pairwise (fun a b => f b ≤ f a) l' := by
    refine hs.imp (fun hab => ?_)
    rw [hle, decide_eq_true_iff] at hab
    omega
  refine ⟨?_, ?_, ?_⟩
  · rw [List.length_take]; exact inf_le_left
  · exact List.Pairwise.sublist (List.take_sublist 10 l') hs'
  · intro p hp hpt q hq
    have hpl : p ∈ l' := (List.mergeSort_perm data le).mem_iff.mpr hp
    have hmem : p ∈ l'.take 10 ++ l'.drop 10 := by
      rw [List.take_append_drop]; exact hpl
    rcases List.mem_append.mp hmem with h | h
    · exact absurd h hpt
    · have hpw : List.Pairwise (fun a b => f b ≤ f a) (l'.take 10 ++ l'.drop 10) := by
        rw [List.take_append_drop]; exact hs'
      exact (List.pairwise_append.mp hpw).2.2 q hq p h

/-- C8: each top-10 list of the statistics page has at most ten entries,
is arranged in non-increasing order of its count (absent counts read as 0),
and every count inside the list dominates the count of every profile left
out. -/
theorem topLists_spec (data : List Profile) :
    (topPosts data).length ≤ 10 ∧
    List.Pairwise (fun a b => natOr b.statuses_count ≤ natOr a.statuses_count) (topPosts data) ∧
    (∀ p ∈ data, p ∉ topPosts data → ∀ q ∈ topPosts data,
      natOr p.statuses_count ≤ natOr q.statuses_count) ∧
    (topFollowers data).length ≤ 10 ∧
    List.Pairwise (fun a b => natOr b.followers_count ≤ natOr a.followers_count)
      (topFollowers data) ∧
    (∀ p ∈ data, p ∉ topFollowers data → ∀ q ∈ topFollowers data,
      natOr p.followers_count ≤ natOr q.followers_count) := by
  have h1 := sortedTake10_facts (fun p => natOr p.statuses_count) data
  have h2 := sortedTake10_facts (fun p => natOr p.followers_count) data
  exact ⟨h1.1, h1.2.1, h1.2.2, h2.1, h2.2.1, h2.2.2⟩

/-- C10: a profile is counted as active exactly when it carries a
`last_status_at` timestamp lying at most 30 days (in milliseconds) before
`now`; profiles without the timestamp are never counted.  The same test is
run by `updateStats` on the main page and `updateOverviewStats` on the
statistics page. -/
theorem isActiveProfile_iff (now : Int) (p : Profile) :
    isActiveProfile now p = true ↔
      ∃ t, p.last_status_at = some t ∧ now - t ≤ 30 * (1000 * 60 * 60 * 24) := by
  cases hls : p.last_status_at with
  | none => simp [isActiveProfile, hls]
  | some t =>
    simp only [isActiveProfile, hls, decide_eq_true_iff]
    constructor
    · intro h
      refine ⟨t, rfl, ?_⟩
      rw [div_le_iff₀ (by norm_num : (0:ℚ) < 1000 * 60 * 60 * 24)] at h
      have hc : ((now - t : Int) : ℚ) ≤ ((30 * (1000 * 60 * 60 * 24) : Int) : ℚ) := by
        push_cast
        linarith
      exact_mod_cast hc
    · rintro ⟨t', ht', hle⟩
      injection ht' with htt
      subst htt
      rw [div_le_iff₀ (by norm_num : (0:ℚ) < 1000 * 60 * 60 * 24)]
      have hc : ((now - t : Int) : ℚ) ≤ ((30 * (1000 * 60 * 60 * 24) : Int) : ℚ) := by
        exact_mod_cast hle
      push_cast at hc
      linarith

/-- C2 (code bug evidence): after initialization of the main page with a
failed profiles fetch, the grid shows the no-results placeholder —
`renderProfiles`, called unconditionally after `loadProfiles`, overwrites
the error markup `showError` had written — so the localized error string is
not shown; no profile card markup is present either. -/
theorem initMainPage_failure_shows_noResults :
    (initMainPage none).gridHtml = emptyStateHtml ∧
    ¬ strContains (initMainPage none).gridHtml profilesErrorMessage ∧
    ¬ strContains (initMainPage none).gridHtml "profile-card" := by
  refine ⟨rfl, ?_, ?_⟩ <;> decide

theorem strContains_append_left (s t sub : String) (h : strContains s sub) :
    strContains (s ++ t) sub := by
  unfold strContains at *
  rw [String.data_append]
  exact List.IsInfix.trans h ⟨[], t.data, by simp⟩

theorem strContains_append_right (s t sub : String) (h : strContains t sub) :
    strContains (s ++ t) sub := by
  unfold strContains at *
  rw [String.data_append]
  exact List.IsInfix.trans h ⟨s.data, [], by simp⟩

theorem strContains_refl (s : String) : strContains s s := ⟨[], [], by simp⟩

/-- C9: when the avatar field is absent or empty, the rendered card
contains the initial-letter badge `<span>X</span>`, where `X` is the
upper-cased first character of the display name, of the username when the
display name is absent or empty, and of the default label when both are. -/
theorem createProfileCard_avatar_fallback (p : Profile)
    (h : strOr p.avatar "" = "") :
    strContains (createProfileCard p)
      ("<span>" ++ jsCharAtUpper (strOr p.display_name (strOr p.username "Fără nume"))
        ++ "</span>") := by
  simp only [createProfileCard]
  rw [h]
  rw [show avatarSlotHtml "" (strOr p.display_name (strOr p.username "Fără nume"))
      (jsCharAtUpper (strOr p.display_name (strOr p.username "Fără nume")))
      = "<span>" ++ jsCharAtUpper (strOr p.display_name (strOr p.username "Fără nume"))
        ++ "</span>" from by simp [avatarSlotHtml]]
  iterate 11 apply strContains_append_left
  apply strContains_append_right
  exact strContains_refl _

/-- Witness for C9 at a concrete profile without an avatar. -/
theorem createProfileCard_avatar_fallback_witness :
    (strOr anaProfile.avatar "" = "") ∧
    strContains (createProfileCard anaProfile)
      ("<span>" ++ jsCharAtUpper (strOr anaProfile.display_name
        (strOr anaProfile.username "Fără nume")) ++ "</span>") :=
  ⟨by decide, createProfileCard_avatar_fallback anaProfile (by decide)⟩

/-- C6 (amended): a failed server-statistics fetch is replaced by the
localized unavailable message, whatever the profiles fetch did; a failed
profiles fetch on the statistics page is only logged — the resulting page
state is indistinguishable from successfully loading an empty profile
list, with no user-visible message. -/
theorem statsPage_failure_handling (pf : Option (List Profile)) (sf : Option ServerStats) :
    (statsPageInit pf none).serverStatsHtml = serverUnavailableHtml ∧
    statsPageInit none sf = statsPageInit (some []) sf :=
  ⟨rfl, rfl⟩

/-- A concrete non-empty server statistics object for the C6
counterexample. -/
def sampleServerStats : ServerStats where
  version := some "4.2.8"
  stats := some { user_count := some 120, status_count := some 3456, domain_count := some 78 }
  title := none
  short_description := none

/-- C6 counterexample: when the profiles fetch fails but the server
statistics fetch succeeds, the statistics page ends up exactly as if an
empty profile list had loaded — both top lists empty, the server block
showing the fetched statistics rather than the localized unavailable
markup (the scripts only ever surface a message by assigning a whole
`innerHTML`, so showing the message means equality with its markup) —
refuting the claim that every fetch failure is replaced by a user-visible
localized message. -/
theorem statsPage_profilesFailure_noMessage :
    statsPageInit none (some sampleServerStats)
      = statsPageInit (some []) (some sampleServerStats) ∧
    (statsPageInit none (some sampleServerStats)).topPostsHtml = "" ∧
    (statsPageInit none (some sampleServerStats)).topFollowersHtml = "" ∧
    (statsPageInit none (some sampleServerStats)).serverStatsHtml
      ≠ serverUnavailableHtml := by
  refine ⟨rfl, ?_, ?_, ?_⟩
  · simp [statsPageInit, loadServerStatsStep, renderTopProfilesStep, topPosts]
    rfl
  · simp [statsPageInit, loadServerStatsStep, renderTopProfilesStep, topFollowers]
    rfl
  · decide

theorem animIncrement_1000 (e : ℚ) : animIncrement 0 e 1000 = e * 2 / 125 := by
  unfold animIncrement
  rw [sub_zero, show (1000:ℚ)/16 = 125/2 by norm_num, div_div_eq_mul_div]

theorem animRun_succ (start endv duration : ℚ) (k : ℕ) :
    animRun start endv duration (k+1)
      = if (animRun start endv duration k).2 then animRun start endv duration k
        else animStep endv (animIncrement start endv duration)
          (animRun start endv duration k).1 := rfl

theorem animRun_le62 (n : ℕ) (hn : 1 ≤ n) :
    ∀ k, k ≤ 62 →
      animRun 0 (n : ℚ) 1000 k = ((k : ℚ) * ((n : ℚ) * 2 / 125), false) := by
  intro k
  induction k with
  | zero =>
    intro _
    simp [animRun]
  | succ k ih =>
    intro hk
    have hnq : (0:ℚ) < (n:ℚ) := by exact_mod_cast Nat.lt_of_lt_of_le Nat.zero_lt_one hn
    have hkq : (k:ℚ) ≤ 61 := by exact_mod_cast (by omega : k ≤ 61)
    rw [animRun_succ, ih (by omega)]
    show animStep (n : ℚ) (animIncrement 0 (n : ℚ) 1000) ((k : ℚ) * ((n : ℚ) * 2 / 125))
      = _
    unfold animStep
    rw [animIncrement_1000]
    rw [if_neg]
    · have harith : (k:ℚ) * ((n:ℚ) * 2 / 125) + (n:ℚ) * 2 / 125
        = ((k:ℚ) + 1) * ((n:ℚ) * 2 / 125) := by ring
      rw [harith]
      have hcast : (((k+1 : ℕ)):ℚ) = (k:ℚ) + 1 := by push_cast; ring
      rw [hcast]
    · rintro (⟨_, hge⟩ | ⟨hneg, _⟩)
      · have : (k:ℚ) * ((n:ℚ) * 2 / 125) + (n:ℚ) * 2 / 125 < (n:ℚ) := by nlinarith
        linarith
      · have : (0:ℚ) < (n:ℚ) * 2 / 125 := by positivity
        linarith

theorem animRun_at63 (n : ℕ) (hn : 1 ≤ n) :
    animRun 0 (n : ℚ) 1000 63 = ((n : ℚ), true) := by
  rw [animRun_succ, animRun_le62 n hn 62 le_rfl]
  show animStep (n : ℚ) (animIncrement 0 (n : ℚ) 1000) ((62 : ℚ) * ((n : ℚ) * 2 / 125))
    = _
  unfold animStep
  rw [animIncrement_1000]
  have hnq : (0:ℚ) < (n:ℚ) := by exact_mod_cast Nat.lt_of_lt_of_le Nat.zero_lt_one hn
  rw [if_pos]
  left
  constructor
  · positivity
  · nlinarith

theorem animRun_after63 (n : ℕ) (hn : 1 ≤ n) :
    ∀ k, 63 ≤ k → animRun 0 (n : ℚ) 1000 k = ((n : ℚ), true) := by
  intro k hk
  induction k with
  | zero => omega
  | succ k ih =>
    by_cases h : k + 1 = 63
    · rw [h]
      exact animRun_at63 n hn
    · have h63 : 63 ≤ k := by omega
      rw [animRun_succ, ih h63]
      rfl

theorem animDisplayed_le (n : ℕ) (hn : 1 ≤ n) (k : ℕ) :
    animDisplayed 0 (n : ℚ) 1000 k ≤ (n : ℤ) := by
  unfold animDisplayed
  by_cases hk : k ≤ 62
  · rw [animRun_le62 n hn k hk]
    have hkq : (k:ℚ) ≤ 62 := by exact_mod_cast hk
    have hnq : (0:ℚ) ≤ (n:ℚ) := by positivity
    have hle : (k:ℚ) * ((n:ℚ) * 2 / 125) ≤ (n:ℚ) := by nlinarith
    calc ⌊(k:ℚ) * ((n:ℚ) * 2 / 125)⌋ ≤ ⌊(n:ℚ)⌋ := Int.floor_le_floor hle
    _ = (n:ℤ) := Int.floor_natCast n
  · rw [animRun_after63 n hn k (by omega)]
    simp [Int.floor_natCast]

/-- C5 (amended): for every positive integer target, the counter animation
from 0 over 1000 ms stops exactly at tick 63 — about one second of 16 ms
ticks — with the counter clamped to the target; it stays stopped ever
after, the displayed floor value never exceeds the target at any tick, and
the displayed value at the stopping tick is exactly the target.  (For
target 0 the interval never stops; see the counterexample.) -/
theorem animateValue_positive_target (n : ℕ) (hn : 1 ≤ n) :
    animRun 0 (n : ℚ) 1000 63 = ((n : ℚ), true) ∧
    (∀ k, 63 ≤ k → animRun 0 (n : ℚ) 1000 k = ((n : ℚ), true)) ∧
    (∀ k, animDisplayed 0 (n : ℚ) 1000 k ≤ (n : ℤ)) ∧
    animDisplayed 0 (n : ℚ) 1000 63 = (n : ℤ) := by
  refine ⟨animRun_at63 n hn, animRun_after63 n hn, animDisplayed_le n hn, ?_⟩
  unfold animDisplayed
  rw [animRun_at63 n hn]
  exact Int.floor_natCast n

/-- Witness for C5 at the concrete target 7. -/
theorem animateValue_positive_target_witness :
    (1 ≤ 7) ∧
    (animRun 0 ((7:ℕ) : ℚ) 1000 63 = (((7:ℕ) : ℚ), true) ∧
      (∀ k, 63 ≤ k → animRun 0 ((7:ℕ) : ℚ) 1000 k = (((7:ℕ) : ℚ), true)) ∧
      (∀ k, animDisplayed 0 ((7:ℕ) : ℚ) 1000 k ≤ ((7:ℕ) : ℤ)) ∧
      animDisplayed 0 ((7:ℕ) : ℚ) 1000 63 = ((7:ℕ) : ℤ)) :=
  ⟨by decide, animateValue_positive_target 7 (by decide)⟩

theorem animRun_zero_target (k : ℕ) : animRun 0 0 1000 k = (0, false) := by
  induction k with
  | zero => rfl
  | succ k ih =>
    rw [animRun_succ, ih]
    show animStep 0 (animIncrement 0 0 1000) 0 = (0, false)
    unfold animStep animIncrement
    norm_num

/-- C5 counterexample: at target 0 the increment is 0, so the stop
condition — which requires a strictly positive or strictly negative
increment — never fires: the interval is still running after 630 ticks,
ten seconds' worth, refuting termination for every non-negative target. -/
theorem animateValue_zero_never_stops : (animRun 0 0 1000 630).2 = false := by
  rw [animRun_zero_target 630]

/-- C1 counterexample: the claim as stated fails because the code matches
the raw biography, not the HTML-stripped one.  With a biography of
`<br>` and query `br`, `handleSearch` keeps the profile although the
stripped biography (and the other fields) do not contain the query. -/
theorem handleSearch_not_spec_counterexample :
    handleSearch [noteOnlyProfile] "br" = [noteOnlyProfile] ∧
    ¬ specSearchPred "br" noteOnlyProfile := by
  constructor
  · decide
  · simp only [specSearchPred]
    decide
